import Mathlib

/-!
Verification of the mortgage-refinance-planner amortization engine
(`src/app/services/loan-calculator.service.ts`), shallowly embedded over ℚ.

JavaScript numbers are modelled as exact rationals; dates are modelled by the
integer month difference `(today.year - start.year) * 12 + (today.month -
start.month)` that the source computes, and a payoff date is represented by
its month offset from the loan start date (the source derives the payoff date
string deterministically from the start date plus the final month count).
-/

namespace Refi

/-- Loan input record, following `LoanData` in `loan.model.ts`.  Optional
numeric fields default to 0 via `|| 0` in the service, so they are modelled
as plain rationals; `continueExtraPayments` defaults to `false`. -/
structure LoanData where
  loanAmount : ℚ
  loanLengthYears : ℕ
  interestRate : ℚ
  monthlyPayment : ℚ
  escrow : ℚ
  extraPayment : ℚ
  oneTimeExtraPayments : ℚ
  closingCosts : ℚ
  continueExtraPayments : Bool
deriving DecidableEq, Repr

/-- Result record, following `LoanCalculationResult` in `loan.model.ts`.
`payoffDate` is the month offset from the loan's start date. -/
structure LoanCalculationResult where
  totalInterestPaid : ℚ
  totalAmountPaid : ℚ
  totalExtraPayment : ℚ
  monthsToPayout : ℕ
  yearsToPayout : ℚ
  payoffDate : ℕ
  currentRemainingBalance : ℚ
  monthsElapsed : ℕ
deriving DecidableEq, Repr

/-- Mutable state of the month-by-month simulation loop in `calculateLoan`. -/
structure SimState where
  balance : ℚ
  totalInterest : ℚ
  totalExtra : ℚ
  monthCount : ℕ
  crb : ℚ
  futureInterest : ℚ
  futureExtra : ℚ
deriving DecidableEq, Repr

/-- Loop-invariant parameters of the simulation, fixed before the loop. -/
structure SimParams where
  monthlyRate : ℚ
  principalAndInterest : ℚ
  extra : ℚ
  oneTime : ℚ
  monthsElapsed : ℕ
  continueExtra : Bool
deriving DecidableEq, Repr

/-- One iteration of the `while` body of the current `calculateLoan`
(service lines 71-140): apply the one-time payment at the elapsed-month
boundary (with its early break), then either the final-payoff branch or the
ordinary principal/interest update. -/
def stepMonth (p : SimParams) (s : SimState) : SimState :=
  let mc := s.monthCount + 1
  let oneTimeApplies := mc = p.monthsElapsed ∧ 0 < p.monthsElapsed ∧ 0 < p.oneTime
  let bal1 := if oneTimeApplies then max 0 (s.balance - p.oneTime) else s.balance
  if oneTimeApplies ∧ bal1 = 0 then
    { s with balance := 0, monthCount := mc }
  else
    let interestPayment := bal1 * p.monthlyRate
    let principalPayment := p.principalAndInterest - interestPayment
    let applyExtra := p.monthsElapsed = 0 ∨ mc ≤ p.monthsElapsed ∨ p.continueExtra
    let extraThisMonth := if applyExtra then p.extra else 0
    let totalPrincipal := principalPayment + extraThisMonth
    if bal1 ≤ totalPrincipal then
      let finalInterest := bal1 * p.monthlyRate
      let finalExtra := if 0 < bal1 - principalPayment then bal1 - principalPayment else 0
      { balance := 0, monthCount := mc,
        totalInterest := s.totalInterest + finalInterest,
        totalExtra := s.totalExtra + finalExtra,
        crb := s.crb,
        futureInterest := s.futureInterest + (if p.monthsElapsed < mc then finalInterest else 0),
        futureExtra := s.futureExtra + (if p.monthsElapsed < mc then finalExtra else 0) }
    else
      let newBal := bal1 - totalPrincipal
      { balance := newBal, monthCount := mc,
        totalInterest := s.totalInterest + interestPayment,
        totalExtra := s.totalExtra + extraThisMonth,
        crb := if mc = p.monthsElapsed then newBal else s.crb,
        futureInterest := s.futureInterest + (if p.monthsElapsed < mc then interestPayment else 0),
        futureExtra := s.futureExtra + (if p.monthsElapsed < mc then extraThisMonth else 0) }

/-- The guarded loop step: the body runs only while `balance > 0` and the
safety cap `monthCount < cap` holds; otherwise the state is unchanged. -/
def loanStep (p : SimParams) (cap : ℕ) (s : SimState) : SimState :=
  if 0 < s.balance ∧ s.monthCount < cap then stepMonth p s else s

/-- Iterating the guarded loop step a given number of times. -/
def loopIter (p : SimParams) (cap : ℕ) : ℕ → SimState → SimState
  | 0, s => s
  | fuel + 1, s => loopIter p cap fuel (loanStep p cap s)

/-- Running the `while` loop to completion: since each live iteration
increments `monthCount` by one and the guard bounds it by `cap`, iterating
the guarded step `cap` times from `monthCount = 0` is the whole loop. -/
def runLoop (p : SimParams) (cap : ℕ) (s : SimState) : SimState :=
  loopIter p cap cap s

/-- Initial loop state: `balance` is the (possibly one-time-reduced) opening
balance, all accumulators zero, `currentRemainingBalance` preset to the full
loan amount. -/
def initState (loanAmount balance0 : ℚ) : SimState :=
  { balance := balance0, totalInterest := 0, totalExtra := 0, monthCount := 0,
    crb := loanAmount, futureInterest := 0, futureExtra := 0 }

/-- Elapsed months as computed at service lines 35-38:
`max(0, (today.year - start.year)*12 + (today.month - start.month))`,
with the raw signed month difference passed in explicitly. -/
def monthsElapsedOf (monthsDiff : ℤ) : ℕ :=
  (max 0 monthsDiff).toNat

/-- Simulation parameters extracted from a loan (service lines 24-50). -/
def mkParams (loan : LoanData) (monthsElapsed : ℕ) : SimParams :=
  { monthlyRate := loan.interestRate / 100 / 12,
    principalAndInterest := loan.monthlyPayment - loan.escrow,
    extra := loan.extraPayment,
    oneTime := loan.oneTimeExtraPayments,
    monthsElapsed := monthsElapsed,
    continueExtra := loan.continueExtraPayments }

/-- The current `calculateLoan` (service lines 23-177), with "today" given by
the signed month difference from the start date. -/
def calculateLoan (loan : LoanData) (monthsDiff : ℤ) : LoanCalculationResult :=
  let totalMonths := loan.loanLengthYears * 12
  let monthsElapsed := monthsElapsedOf monthsDiff
  if monthsElapsed = 0 ∧ 0 < loan.oneTimeExtraPayments ∧
      max 0 (loan.loanAmount - loan.oneTimeExtraPayments) = 0 then
    { totalInterestPaid := 0,
      totalAmountPaid := loan.loanAmount,
      totalExtraPayment := loan.oneTimeExtraPayments,
      monthsToPayout := 0,
      yearsToPayout := 0,
      payoffDate := 0,
      currentRemainingBalance := 0,
      monthsElapsed := 0 }
  else
    let balance0 := if monthsElapsed = 0 ∧ 0 < loan.oneTimeExtraPayments then
      max 0 (loan.loanAmount - loan.oneTimeExtraPayments) else loan.loanAmount
    let s := runLoop (mkParams loan monthsElapsed) (totalMonths * 2)
      (initState loan.loanAmount balance0)
    let crb := if monthsElapsed = 0 then loan.loanAmount else s.crb
    let futureInterest := if monthsElapsed = 0 then s.totalInterest else s.futureInterest
    let futureExtra := if monthsElapsed = 0 then s.totalExtra else s.futureExtra
    let remainingMonths := if 0 < monthsElapsed then s.monthCount - monthsElapsed else s.monthCount
    { totalInterestPaid := if 0 < monthsElapsed then futureInterest else s.totalInterest,
      totalAmountPaid := if 0 < monthsElapsed then crb + futureInterest
        else loan.loanAmount + s.totalInterest,
      totalExtraPayment := if 0 < monthsElapsed then futureExtra else s.totalExtra,
      monthsToPayout := remainingMonths,
      yearsToPayout := (remainingMonths : ℚ) / 12,
      payoffDate := s.monthCount,
      currentRemainingBalance := crb,
      monthsElapsed := monthsElapsed }

/-- One iteration of the `while` body of the older `calculateLoan` found in
the repository (old service lines 48-95): no one-time handling inside the
loop and the recurring extra payment applied unconditionally. -/
def stepMonthOld (p : SimParams) (s : SimState) : SimState :=
  let mc := s.monthCount + 1
  let interestPayment := s.balance * p.monthlyRate
  let principalPayment := p.principalAndInterest - interestPayment
  let extraThisMonth := p.extra
  let totalPrincipal := principalPayment + extraThisMonth
  if s.balance ≤ totalPrincipal then
    let finalInterest := s.balance * p.monthlyRate
    let finalExtra := if 0 < s.balance - principalPayment then s.balance - principalPayment else 0
    { balance := 0, monthCount := mc,
      totalInterest := s.totalInterest + finalInterest,
      totalExtra := s.totalExtra + finalExtra,
      crb := s.crb,
      futureInterest := s.futureInterest + (if p.monthsElapsed < mc then finalInterest else 0),
      futureExtra := s.futureExtra + (if p.monthsElapsed < mc then finalExtra else 0) }
  else
    let newBal := s.balance - totalPrincipal
    { balance := newBal, monthCount := mc,
      totalInterest := s.totalInterest + interestPayment,
      totalExtra := s.totalExtra + extraThisMonth,
      crb := if mc = p.monthsElapsed then newBal else s.crb,
      futureInterest := s.futureInterest + (if p.monthsElapsed < mc then interestPayment else 0),
      futureExtra := s.futureExtra + (if p.monthsElapsed < mc then extraThisMonth else 0) }

/-- Guarded loop step of the older version. -/
def loanStepOld (p : SimParams) (cap : ℕ) (s : SimState) : SimState :=
  if 0 < s.balance ∧ s.monthCount < cap then stepMonthOld p s else s

/-- Iterating the older guarded loop step a given number of times. -/
def loopIterOld (p : SimParams) (cap : ℕ) : ℕ → SimState → SimState
  | 0, s => s
  | fuel + 1, s => loopIterOld p cap fuel (loanStepOld p cap s)

/-- The older version's `while` loop run to completion. -/
def runLoopOld (p : SimParams) (cap : ℕ) (s : SimState) : SimState :=
  loopIterOld p cap cap s

/-- The older `calculateLoan` (old service lines 23-127): no early one-time
path, the one-time amount instead subtracted from the remaining-balance
snapshot after the loop, and `monthsToPayout` reported as the raw month
count rather than months remaining from today. -/
def calculateLoanOld (loan : LoanData) (monthsDiff : ℤ) : LoanCalculationResult :=
  let totalMonths := loan.loanLengthYears * 12
  let monthsElapsed := monthsElapsedOf monthsDiff
  let s := runLoopOld (mkParams loan monthsElapsed) (totalMonths * 2)
    (initState loan.loanAmount loan.loanAmount)
  let crbPre := if monthsElapsed = 0 then loan.loanAmount else s.crb
  let futureInterest := if monthsElapsed = 0 then s.totalInterest else s.futureInterest
  let futureExtra := if monthsElapsed = 0 then s.totalExtra else s.futureExtra
  let crb := max 0 (crbPre - loan.oneTimeExtraPayments)
  { totalInterestPaid := if 0 < monthsElapsed then futureInterest else s.totalInterest,
    totalAmountPaid := if 0 < monthsElapsed then crb + futureInterest
      else loan.loanAmount + s.totalInterest,
    totalExtraPayment := if 0 < monthsElapsed then futureExtra else s.totalExtra,
    monthsToPayout := s.monthCount,
    yearsToPayout := (s.monthCount : ℚ) / 12,
    payoffDate := s.monthCount,
    currentRemainingBalance := crb,
    monthsElapsed := monthsElapsed }

/-- Break-even computation of `compareLoan` (service lines 188, 191,
199-204); it depends only on the two contractual monthly payments and the
new loan's closing costs. -/
def breakEvenMonthsOf (originalLoan newLoan : LoanData) : ℤ :=
  let monthlyPaymentDifference := newLoan.monthlyPayment - originalLoan.monthlyPayment
  let closingCosts := newLoan.closingCosts
  if 0 < closingCosts ∧ monthlyPaymentDifference < 0 then
    let monthlySavings := |monthlyPaymentDifference|
    if 0 < monthlySavings then ⌈closingCosts / monthlySavings⌉ else 0
  else 0

/-- Level-payment formula as evaluated inside `calculateSuggestedRate`
(service lines 310-320), for a candidate annual percent rate `mid`. -/
def solverPayment (loanAmount : ℚ) (totalMonths : ℕ) (mid : ℚ) : ℚ :=
  let monthlyRate := mid / 100 / 12
  if monthlyRate = 0 then loanAmount / totalMonths
  else loanAmount * (monthlyRate * (1 + monthlyRate) ^ totalMonths) /
    ((1 + monthlyRate) ^ totalMonths - 1)

/-- Standalone monthly-payment utility `calculateMonthlyPayment`
(service lines 342-357). -/
def calculateMonthlyPayment (loanAmount : ℚ) (loanLengthYears : ℕ) (interestRate : ℚ) : ℚ :=
  let monthlyRate := interestRate / 100 / 12
  let totalMonths := loanLengthYears * 12
  if monthlyRate = 0 then loanAmount / totalMonths
  else loanAmount * (monthlyRate * (1 + monthlyRate) ^ totalMonths) /
    ((1 + monthlyRate) ^ totalMonths - 1)

/-- Bisection loop of `calculateSuggestedRate` (service lines 309-334),
with the iteration budget as fuel; `mid` is always the midpoint of
`[low, high]` at entry, matching the source's update order. -/
def suggestedRateLoop (loanAmount : ℚ) (totalMonths : ℕ) (target : ℚ) :
    ℕ → ℚ → ℚ → ℚ → ℚ
  | 0, _, _, mid => mid
  | fuel + 1, low, high, mid =>
    if 1 / 10000 < high - low then
      let pay := solverPayment loanAmount totalMonths mid
      if |pay - target| < 1 / 100 then mid
      else if pay < target then
        suggestedRateLoop loanAmount totalMonths target fuel mid high ((mid + high) / 2)
      else
        suggestedRateLoop loanAmount totalMonths target fuel low mid ((low + mid) / 2)
    else mid

/-- The payment-target rate solver `calculateSuggestedRate`
(service lines 289-337). -/
def calculateSuggestedRate (loanAmount : ℚ) (loanLengthYears : ℕ)
    (targetMonthlyPayment : ℚ) : ℚ :=
  let totalMonths := loanLengthYears * 12
  if targetMonthlyPayment ≤ loanAmount / totalMonths then 0
  else suggestedRateLoop loanAmount totalMonths targetMonthlyPayment 100 0 20 10

/-- A loan whose one-time payment equals its full principal. -/
def loanFullLump : LoanData :=
  { loanAmount := 100, loanLengthYears := 1, interestRate := 5,
    monthlyPayment := 20, escrow := 0, extraPayment := 0,
    oneTimeExtraPayments := 100, closingCosts := 0, continueExtraPayments := false }

/-- Present value of an `n`-month annuity of 1 per month at monthly rate `m`. -/
def annuity (m : ℚ) (n : ℕ) : ℚ :=
  ∑ k ∈ Finset.range n, (1 / (1 + m)) ^ (k + 1)

end Refi

namespace Refi

/-- A non-amortizing loan: 100000 at 12% for a 1-year term with a 500
contractual payment; monthly interest (1000 at the start) always exceeds the
payment, so the balance grows every month. -/
def loanNonAmort : LoanData :=
  { loanAmount := 100000, loanLengthYears := 1, interestRate := 12,
    monthlyPayment := 500, escrow := 0, extraPayment := 0,
    oneTimeExtraPayments := 0, closingCosts := 0, continueExtraPayments := false }

/-- A small zero-rate loan paid off in its first month, used with a "today"
far past the loan's horizon. -/
def loanPastHorizon : LoanData :=
  { loanAmount := 100, loanLengthYears := 1, interestRate := 0,
    monthlyPayment := 100, escrow := 0, extraPayment := 0,
    oneTimeExtraPayments := 0, closingCosts := 0, continueExtraPayments := false }

/-- A 1200 zero-rate loan repaid 100 per month over exactly 12 months, in
the configuration (no one-time payment, `continueExtraPayments = true`)
under which the old and new loop bodies coincide. -/
def loanTwelveMonths : LoanData :=
  { loanAmount := 1200, loanLengthYears := 1, interestRate := 0,
    monthlyPayment := 100, escrow := 0, extraPayment := 0,
    oneTimeExtraPayments := 0, closingCosts := 0, continueExtraPayments := true }

/-- Original loan of the break-even scenario: monthly payment 2100. -/
def loanScenarioOriginal : LoanData :=
  { loanAmount := 300000, loanLengthYears := 30, interestRate := 7,
    monthlyPayment := 2100, escrow := 0, extraPayment := 0,
    oneTimeExtraPayments := 0, closingCosts := 0, continueExtraPayments := false }

/-- New loan of the break-even scenario: monthly payment 1950 (so the
payment delta is −150) and closing costs 5000. -/
def loanScenarioNew : LoanData :=
  { loanAmount := 300000, loanLengthYears := 30, interestRate := 6,
    monthlyPayment := 1950, escrow := 0, extraPayment := 5000,
    oneTimeExtraPayments := 0, closingCosts := 5000, continueExtraPayments := false }

set_option maxRecDepth 100000 in
set_option maxHeartbeats 2000000 in
/-- C1: on a non-amortizing loan the simulation reaches the safety cap
(2 × 12 = 24 iterations) with the balance still positive, yet
`calculateLoan` returns the cap-truncated totals as an ordinary result
(`monthsToPayout` and the payoff date are simply the cap); no distinct
"does not amortize within horizon" outcome exists in the code. -/
theorem c1_nonamortizing_cap_silently_truncated :
    0 < (runLoop (mkParams loanNonAmort 0) 24 (initState 100000 100000)).balance ∧
    (calculateLoan loanNonAmort 0).monthsToPayout = 24 ∧
    (calculateLoan loanNonAmort 0).payoffDate = 24 := by
  refine ⟨?_, ?_, ?_⟩ <;>
    norm_num [calculateLoan, monthsElapsedOf, runLoop, loopIter, loanStep, stepMonth,
      mkParams, initState, loanNonAmort]

set_option maxRecDepth 100000 in
set_option maxHeartbeats 2000000 in
/-- C2 counterexample: with a 1-year loan (horizon 12 months) and a "today"
24 months after the start, the returned `monthsElapsed` is 24, strictly
above the loan's own horizon, so the claimed upper clamp does not exist. -/
theorem c2_monthsElapsed_exceeds_horizon :
    (calculateLoan loanPastHorizon 24).monthsElapsed = 24 ∧
    loanPastHorizon.loanLengthYears * 12 <
      (calculateLoan loanPastHorizon 24).monthsElapsed := by
  refine ⟨?_, ?_⟩ <;>
    norm_num [calculateLoan, monthsElapsedOf, runLoop, loopIter, loanStep, stepMonth,
      mkParams, initState, loanPastHorizon] <;> omega

/-- C2 amended: `monthsElapsed` is exactly `max 0` of the signed month
difference — clamped below at 0 but never clamped above at the horizon. -/
theorem c2_monthsElapsed_lower_clamp_only (loan : LoanData) (monthsDiff : ℤ) :
    (calculateLoan loan monthsDiff).monthsElapsed = monthsElapsedOf monthsDiff := by
  simp only [calculateLoan]
  split
  · next h => simp [h.1]
  · rfl

/-- C3 counterexample: on the non-amortizing loan the very first simulated
month increases the balance (interest 1000 exceeds the 500 payment), so the
running balance is not monotonically non-increasing. -/
theorem c3_balance_increases_on_first_month :
    (initState 100000 100000).balance <
      (loanStep (mkParams loanNonAmort 0) 24 (initState 100000 100000)).balance := by
  norm_num [loanStep, stepMonth, mkParams, initState, loanNonAmort]

set_option maxRecDepth 100000 in
set_option maxHeartbeats 2000000 in
/-- C7 counterexample: for principal 1, term 1 year, rate 5, the solver's
very first probe at the midpoint rate 10 already matches the target payment
within the $0.01 payment tolerance, so it returns 10 — not 5 within any
stated tolerance. -/
theorem c7_round_trip_returns_far_rate :
    calculateSuggestedRate 1 1 (calculateMonthlyPayment 1 1 5) = 10 ∧
    ¬ |calculateSuggestedRate 1 1 (calculateMonthlyPayment 1 1 5) - 5| ≤ 1 / 100 := by
  have ht : calculateMonthlyPayment 1 1 5 =
      38388797722185519065061084481 / 448428068670946335614660275440 := by
    norm_num [calculateMonthlyPayment]
  have hs : solverPayment 1 (1 * 12) 10 =
      9849732675807611094711841 / 112035867306193331365420920 := by
    norm_num [solverPayment]
  have h : calculateSuggestedRate 1 1 (calculateMonthlyPayment 1 1 5) = 10 := by
    rw [ht]
    simp only [calculateSuggestedRate]
    rw [if_neg (by norm_num), show (100 : ℕ) = 99 + 1 from rfl, suggestedRateLoop]
    rw [if_pos (by norm_num : (1 : ℚ) / 10000 < 20 - 0)]
    simp only [hs]
    rw [if_pos (by rw [abs_of_pos (by norm_num)]; norm_num)]
  refine ⟨h, ?_⟩
  rw [h]
  norm_num

set_option maxRecDepth 100000 in
set_option maxHeartbeats 2000000 in
/-- C10 counterexample: same loan, same "today" 6 months in: the old
version reports `monthsToPayout = 12` (months from the start) while the
current version reports 6 (months remaining from today), so the two
versions do not return identical results field for field. -/
theorem c10_old_new_monthsToPayout_differ :
    (calculateLoan loanTwelveMonths 6).monthsToPayout = 6 ∧
    (calculateLoanOld loanTwelveMonths 6).monthsToPayout = 12 := by
  refine ⟨?_, ?_⟩
  · norm_num [calculateLoan, monthsElapsedOf, runLoop, loopIter, loanStep, stepMonth,
      mkParams, initState, loanTwelveMonths]
    omega
  · norm_num [calculateLoanOld, monthsElapsedOf, runLoopOld, loopIterOld, loanStepOld,
      stepMonthOld, mkParams, initState, loanTwelveMonths]

/-- C5: a one-time payment equal to the full principal at `monthsElapsed = 0`
retires the loan immediately: zero months to payout, zero interest, and the
payoff date is the start date itself (month offset 0). -/
theorem c5_full_lump_sum_immediate_payoff (loan : LoanData) (monthsDiff : ℤ)
    (hd : monthsDiff ≤ 0) (hP : 0 < loan.loanAmount)
    (hot : loan.oneTimeExtraPayments = loan.loanAmount) :
    (calculateLoan loan monthsDiff).monthsToPayout = 0 ∧
    (calculateLoan loan monthsDiff).totalInterestPaid = 0 ∧
    (calculateLoan loan monthsDiff).payoffDate = 0 := by
  have he : monthsElapsedOf monthsDiff = 0 := by
    unfold monthsElapsedOf
    omega
  have hcond : monthsElapsedOf monthsDiff = 0 ∧ 0 < loan.oneTimeExtraPayments ∧
      max 0 (loan.loanAmount - loan.oneTimeExtraPayments) = 0 := by
    refine ⟨he, hot ▸ hP, ?_⟩
    rw [hot, sub_self, max_self]
  simp only [calculateLoan]
  rw [if_pos hcond]
  exact ⟨rfl, rfl, rfl⟩

/-- C5 witness at a concrete input. -/
theorem c5_full_lump_sum_immediate_payoff_witness :
    (-3 : ℤ) ≤ 0 ∧ (0 : ℚ) < loanFullLump.loanAmount ∧
    (calculateLoan loanFullLump (-3)).monthsToPayout = 0 :=
  ⟨by norm_num, by norm_num [loanFullLump],
    (c5_full_lump_sum_immediate_payoff loanFullLump (-3) (by norm_num)
      (by norm_num [loanFullLump]) rfl).1⟩

/-- C6: `breakEvenMonths` equals `⌈closingCosts / |paymentDelta|⌉` exactly
when the new loan has positive closing costs and a strictly lower payment,
and 0 otherwise; the 5000-closing-costs, −150-delta scenario yields 34. -/
theorem c6_breakEvenMonths_formula :
    (∀ originalLoan newLoan : LoanData,
      breakEvenMonthsOf originalLoan newLoan =
        if 0 < newLoan.closingCosts ∧
            newLoan.monthlyPayment - originalLoan.monthlyPayment < 0 then
          ⌈newLoan.closingCosts / |newLoan.monthlyPayment - originalLoan.monthlyPayment|⌉
        else 0) ∧
    breakEvenMonthsOf loanScenarioOriginal loanScenarioNew = 34 := by
  constructor
  · intro o n
    simp only [breakEvenMonthsOf]
    split
    · next h => rw [if_pos (abs_pos.mpr (ne_of_lt h.2))]
    · rfl
  · simp only [breakEvenMonthsOf, loanScenarioOriginal, loanScenarioNew]
    norm_num [Int.ceil_eq_iff]

end Refi

namespace Refi

/-- Any property preserved by one guarded step is preserved by iterating it. -/
lemma loopIter_preserves (p : SimParams) (cap : ℕ) (P : SimState → Prop)
    (hstep : ∀ s, P s → P (loanStep p cap s)) :
    ∀ (fuel : ℕ) (s : SimState), P s → P (loopIter p cap fuel s) := by
  intro fuel
  induction fuel with
  | zero => exact fun s h => h
  | succ f ih =>
    intro s h
    simp only [loopIter]
    exact ih _ (hstep s h)

/-- A guarded step can be peeled off the right end of an iterate. -/
lemma loopIter_succ_apply (p : SimParams) (cap fuel : ℕ) (s : SimState) :
    loopIter p cap (fuel + 1) s = loanStep p cap (loopIter p cap fuel s) := by
  induction fuel generalizing s with
  | zero => rfl
  | succ f ih =>
    simp only [loopIter]
    exact ih _

/-- With a zero monthly rate, a guarded step adds no interest to either
interest accumulator. -/
lemma loanStep_zero_interest (p : SimParams) (cap : ℕ) (hr : p.monthlyRate = 0)
    (s : SimState) (h : s.totalInterest = 0 ∧ s.futureInterest = 0) :
    (loanStep p cap s).totalInterest = 0 ∧ (loanStep p cap s).futureInterest = 0 := by
  obtain ⟨h1, h2⟩ := h
  simp only [loanStep, stepMonth, hr, mul_zero]
  split_ifs <;> simp_all

/-- C9: with a zero annual rate the whole calculation is division-free in
the rate, every month's interest term is zero, so the reported total
interest is zero; and the payment utility returns principal divided by the
number of months. -/
theorem c9_zero_rate_zero_interest (loan : LoanData) (monthsDiff : ℤ)
    (h : loan.interestRate = 0) :
    (calculateLoan loan monthsDiff).totalInterestPaid = 0 ∧
    calculateMonthlyPayment loan.loanAmount loan.loanLengthYears 0 =
      loan.loanAmount / ((loan.loanLengthYears : ℚ) * 12) := by
  constructor
  · have hr : (mkParams loan (monthsElapsedOf monthsDiff)).monthlyRate = 0 := by
      simp [mkParams, h]
    have hinv : ∀ b0 : ℚ,
        (runLoop (mkParams loan (monthsElapsedOf monthsDiff))
          (loan.loanLengthYears * 12 * 2) (initState loan.loanAmount b0)).totalInterest = 0 ∧
        (runLoop (mkParams loan (monthsElapsedOf monthsDiff))
          (loan.loanLengthYears * 12 * 2) (initState loan.loanAmount b0)).futureInterest = 0 :=
      fun b0 => loopIter_preserves _ _ _
        (loanStep_zero_interest _ _ hr) _ _ ⟨rfl, rfl⟩
    simp only [calculateLoan]
    split
    · rfl
    · simp only [hinv]
      split_ifs <;> rfl
  · simp only [calculateMonthlyPayment]
    rw [if_pos (by norm_num)]
    have : ((loan.loanLengthYears * 12 : ℕ) : ℚ) = (loan.loanLengthYears : ℚ) * 12 := by
      push_cast
      ring
    rw [this]

/-- C9 witness at a concrete input. -/
theorem c9_zero_rate_zero_interest_witness :
    loanTwelveMonths.interestRate = 0 ∧
    (calculateLoan loanTwelveMonths 6).totalInterestPaid = 0 :=
  ⟨rfl, (c9_zero_rate_zero_interest loanTwelveMonths 6 rfl).1⟩

/-- One month of the simulation keeps the balance within `[0, previous
balance]` provided the P&I payment covers the interest on a bound `B` of
the balance and the recurring extra payment is non-negative. -/
lemma stepMonth_balance (p : SimParams) (B : ℚ)
    (hr : 0 ≤ p.monthlyRate) (he : 0 ≤ p.extra)
    (hPI : p.monthlyRate * B ≤ p.principalAndInterest)
    (s : SimState) (hb0 : 0 ≤ s.balance) (hbB : s.balance ≤ B) :
    0 ≤ (stepMonth p s).balance ∧ (stepMonth p s).balance ≤ s.balance := by
  have hext : (0 : ℚ) ≤
      if p.monthsElapsed = 0 ∨ s.monthCount + 1 ≤ p.monthsElapsed ∨ p.continueExtra = true
      then p.extra else 0 := by
    split_ifs
    · exact he
    · exact le_refl 0
  simp only [stepMonth]
  by_cases h1 : s.monthCount + 1 = p.monthsElapsed ∧ 0 < p.monthsElapsed ∧ 0 < p.oneTime
  · simp only [if_pos h1]
    have hm0 : (0 : ℚ) ≤ max 0 (s.balance - p.oneTime) := le_max_left _ _
    have hmb : max 0 (s.balance - p.oneTime) ≤ s.balance :=
      max_le hb0 (by linarith [h1.2.2])
    have hIb : max 0 (s.balance - p.oneTime) * p.monthlyRate ≤ p.principalAndInterest := by
      calc max 0 (s.balance - p.oneTime) * p.monthlyRate
          ≤ B * p.monthlyRate :=
            mul_le_mul_of_nonneg_right (le_trans hmb hbB) hr
        _ = p.monthlyRate * B := mul_comm _ _
        _ ≤ p.principalAndInterest := hPI
    by_cases h2 : (s.monthCount + 1 = p.monthsElapsed ∧ 0 < p.monthsElapsed ∧ 0 < p.oneTime) ∧
        max 0 (s.balance - p.oneTime) = 0
    · simp only [if_pos h2]
      exact ⟨le_refl 0, hb0⟩
    · simp only [if_neg h2]
      by_cases h3 : max 0 (s.balance - p.oneTime) ≤
          p.principalAndInterest - max 0 (s.balance - p.oneTime) * p.monthlyRate +
          (if p.monthsElapsed = 0 ∨ s.monthCount + 1 ≤ p.monthsElapsed ∨ p.continueExtra = true
            then p.extra else 0)
      · simp only [if_pos h3]
        exact ⟨le_refl 0, hb0⟩
      · simp only [if_neg h3]
        push_neg at h3
        constructor
        · dsimp only
          linarith
        · dsimp only
          linarith
  · simp only [if_neg h1]
    have h2 : ¬((s.monthCount + 1 = p.monthsElapsed ∧ 0 < p.monthsElapsed ∧ 0 < p.oneTime) ∧
        s.balance = 0) := fun hc => h1 hc.1
    simp only [if_neg h2]
    have hIb : s.balance * p.monthlyRate ≤ p.principalAndInterest := by
      calc s.balance * p.monthlyRate
          ≤ B * p.monthlyRate := mul_le_mul_of_nonneg_right hbB hr
        _ = p.monthlyRate * B := mul_comm _ _
        _ ≤ p.principalAndInterest := hPI
    by_cases h3 : s.balance ≤
        p.principalAndInterest - s.balance * p.monthlyRate +
        (if p.monthsElapsed = 0 ∨ s.monthCount + 1 ≤ p.monthsElapsed ∨ p.continueExtra = true
          then p.extra else 0)
    · simp only [if_pos h3]
      exact ⟨le_refl 0, hb0⟩
    · simp only [if_neg h3]
      push_neg at h3
      constructor
      · dsimp only
        linarith
      · dsimp only
        linarith

/-- Guarded-step version of `stepMonth_balance`. -/
lemma loanStep_balance (p : SimParams) (cap : ℕ) (B : ℚ)
    (hr : 0 ≤ p.monthlyRate) (he : 0 ≤ p.extra)
    (hPI : p.monthlyRate * B ≤ p.principalAndInterest)
    (s : SimState) (hb0 : 0 ≤ s.balance) (hbB : s.balance ≤ B) :
    0 ≤ (loanStep p cap s).balance ∧ (loanStep p cap s).balance ≤ s.balance := by
  unfold loanStep
  split
  · exact stepMonth_balance p B hr he hPI s hb0 hbB
  · exact ⟨hb0, le_refl _⟩

/-- One guarded step keeps the balance non-negative, with no assumption on
the rate or the payments: the final-payoff and one-time branches set it to
0 exactly, and the ordinary branch runs only when the principal paid is
strictly below the balance. -/
lemma loanStep_balance_nonneg (p : SimParams) (cap : ℕ) (s : SimState)
    (h : 0 ≤ s.balance) : 0 ≤ (loanStep p cap s).balance := by
  simp only [loanStep, stepMonth]
  split_ifs <;> (try dsimp only) <;> linarith

/-- C3 amended: along the simulation of `calculateLoan`, starting from any
non-negative opening balance, the balance is never negative at any point —
unconditionally; and provided the rate and recurring extra payment are
non-negative, the opening balance is at most the principal, and the P&I
payment covers one month of interest on the full principal, the balance is
also monotonically non-increasing month over month. -/
theorem c3_balance_nonneg_and_conditionally_nonincreasing (loan : LoanData)
    (monthsDiff : ℤ) (b0 : ℚ) (hb0 : 0 ≤ b0) :
    (∀ k : ℕ,
      0 ≤ (loopIter (mkParams loan (monthsElapsedOf monthsDiff))
        (loan.loanLengthYears * 12 * 2) k (initState loan.loanAmount b0)).balance) ∧
    (0 ≤ loan.interestRate → 0 ≤ loan.extraPayment → b0 ≤ loan.loanAmount →
      loan.interestRate / 100 / 12 * loan.loanAmount ≤
        loan.monthlyPayment - loan.escrow →
      ∀ k : ℕ,
        (loopIter (mkParams loan (monthsElapsedOf monthsDiff))
          (loan.loanLengthYears * 12 * 2) (k + 1) (initState loan.loanAmount b0)).balance ≤
        (loopIter (mkParams loan (monthsElapsedOf monthsDiff))
          (loan.loanLengthYears * 12 * 2) k (initState loan.loanAmount b0)).balance) := by
  set p := mkParams loan (monthsElapsedOf monthsDiff) with hp
  constructor
  · intro k
    exact loopIter_preserves p _ (fun s => 0 ≤ s.balance)
      (fun s hs => loanStep_balance_nonneg p _ s hs) k _ hb0
  · intro hr he hbB hPI
    have hr' : 0 ≤ p.monthlyRate := by
      rw [hp]
      simp only [mkParams]
      positivity
    have he' : 0 ≤ p.extra := he
    have hPI' : p.monthlyRate * loan.loanAmount ≤ p.principalAndInterest := hPI
    have hQ : ∀ k : ℕ,
        0 ≤ (loopIter p (loan.loanLengthYears * 12 * 2) k
          (initState loan.loanAmount b0)).balance ∧
        (loopIter p (loan.loanLengthYears * 12 * 2) k
          (initState loan.loanAmount b0)).balance ≤ loan.loanAmount := by
      intro k
      refine loopIter_preserves p _ (fun s => 0 ≤ s.balance ∧ s.balance ≤ loan.loanAmount)
        (fun s hs => ?_) k _ ⟨hb0, hbB⟩
      obtain ⟨hs0, hsB⟩ := hs
      obtain ⟨g0, gle⟩ := loanStep_balance p _ loan.loanAmount hr' he' hPI' s hs0 hsB
      exact ⟨g0, le_trans gle hsB⟩
    intro k
    obtain ⟨h1, h2⟩ := hQ k
    rw [loopIter_succ_apply]
    exact (loanStep_balance p _ loan.loanAmount hr' he' hPI' _ h1 h2).2

/-- C3 amended witness at a concrete input, exercising both the
unconditional non-negativity part and the conditional monotonicity part. -/
theorem c3_balance_nonneg_witness :
    (0 : ℚ) ≤ 1200 ∧
    0 ≤ (loopIter (mkParams loanNonAmort (monthsElapsedOf 0))
      (loanNonAmort.loanLengthYears * 12 * 2) 3
      (initState loanNonAmort.loanAmount 1200)).balance ∧
    (loopIter (mkParams loanTwelveMonths (monthsElapsedOf 0))
      (loanTwelveMonths.loanLengthYears * 12 * 2) 4
      (initState loanTwelveMonths.loanAmount 1200)).balance ≤
    (loopIter (mkParams loanTwelveMonths (monthsElapsedOf 0))
      (loanTwelveMonths.loanLengthYears * 12 * 2) 3
      (initState loanTwelveMonths.loanAmount 1200)).balance :=
  ⟨by norm_num,
    (c3_balance_nonneg_and_conditionally_nonincreasing loanNonAmort 0 1200
      (by norm_num)).1 3,
    (c3_balance_nonneg_and_conditionally_nonincreasing loanTwelveMonths 0 1200
      (by norm_num)).2 (by norm_num [loanTwelveMonths]) (by norm_num [loanTwelveMonths])
      (by norm_num [loanTwelveMonths]) (by norm_num [loanTwelveMonths]) 3⟩

end Refi

namespace Refi

/-- Growth-factor bound `(1 + m) ^ n - 1 ≤ n·m·(1 + m) ^ n` for `m ≥ 0`. -/
lemma geom_pow_bound (m : ℚ) (hm : 0 ≤ m) :
    ∀ n : ℕ, (1 + m) ^ n - 1 ≤ (n : ℚ) * m * (1 + m) ^ n := by
  intro n
  induction n with
  | zero => norm_num
  | succ k ih =>
    have hx : (1 : ℚ) ≤ (1 + m) ^ k := one_le_pow₀ (by linarith)
    have h1 : ((1 + m) ^ k - 1) * (1 + m) ≤ ((k : ℚ) * m * (1 + m) ^ k) * (1 + m) :=
      mul_le_mul_of_nonneg_right ih (by linarith)
    have h2 : m ≤ m * ((1 + m) ^ k * (1 + m)) :=
      le_mul_of_one_le_right hm (by nlinarith)
    push_cast
    rw [pow_succ]
    nlinarith [h1, h2]

/-- C8: the level-payment formula never under-covers principal over the
full unreduced horizon: `calculateMonthlyPayment P years rate × 12 × years`
is at least `P` for any rate ≥ 0, term ≥ 1 and principal ≥ 0. -/
theorem c8_payment_covers_principal (P : ℚ) (years : ℕ) (rate : ℚ)
    (hP : 0 ≤ P) (hy : 1 ≤ years) (hr : 0 ≤ rate) :
    P ≤ calculateMonthlyPayment P years rate * 12 * (years : ℚ) := by
  have hn : (0 : ℚ) < ((years * 12 : ℕ) : ℚ) := by
    have h12 : 0 < years * 12 := by omega
    exact_mod_cast h12
  simp only [calculateMonthlyPayment]
  by_cases hm : rate / 100 / 12 = 0
  · rw [if_pos hm, div_mul_eq_mul_div, div_mul_eq_mul_div, le_div_iff₀ hn]
    refine le_of_eq ?_
    push_cast
    ring
  · rw [if_neg hm]
    have hm0 : 0 ≤ rate / 100 / 12 := by positivity
    have hx1 : (1 : ℚ) < (1 + rate / 100 / 12) ^ (years * 12) :=
      one_lt_pow₀ (by linarith [lt_of_le_of_ne hm0 (Ne.symm hm)]) (by omega)
    have hxpos : (0 : ℚ) < (1 + rate / 100 / 12) ^ (years * 12) - 1 := by linarith
    rw [div_mul_eq_mul_div, div_mul_eq_mul_div, le_div_iff₀ hxpos]
    have h1 : P * ((1 + rate / 100 / 12) ^ (years * 12) - 1) ≤
        P * (((years * 12 : ℕ) : ℚ) * (rate / 100 / 12) *
          (1 + rate / 100 / 12) ^ (years * 12)) :=
      mul_le_mul_of_nonneg_left (geom_pow_bound (rate / 100 / 12) hm0 (years * 12)) hP
    refine le_trans h1 (le_of_eq ?_)
    push_cast
    ring

/-- C8 witness at a concrete input. -/
theorem c8_payment_covers_principal_witness :
    (0 : ℚ) ≤ 1200 ∧ 1 ≤ 1 ∧ (0 : ℚ) ≤ 0 ∧
    (1200 : ℚ) ≤ calculateMonthlyPayment 1200 1 0 * 12 * (1 : ℚ) :=
  ⟨by norm_num, le_refl 1, le_refl 0,
    by
      have h := c8_payment_covers_principal 1200 1 0 (by norm_num) (le_refl 1) (le_refl 0)
      simpa using h⟩

end Refi

namespace Refi

/-- Closed form of the annuity factor for a positive monthly rate. -/
lemma annuity_closed (m : ℚ) (hm : 0 < m) (n : ℕ) :
    annuity m n = ((1 + m) ^ n - 1) / (m * (1 + m) ^ n) := by
  have hx0 : (0 : ℚ) < 1 + m := by linarith
  induction n with
  | zero => simp [annuity]
  | succ k ih =>
    have hxk : (0 : ℚ) < (1 + m) ^ k := pow_pos hx0 k
    rw [annuity, Finset.sum_range_succ, ← annuity, ih, pow_succ, pow_succ]
    field_simp
    ring

/-- The annuity factor is positive for `m ≥ 0`, `n ≥ 1`. -/
lemma annuity_pos (m : ℚ) (hm : 0 ≤ m) (n : ℕ) (hn : 1 ≤ n) : 0 < annuity m n := by
  have hx0 : (0 : ℚ) < 1 + m := by linarith
  refine Finset.sum_pos (fun k _ => pow_pos (by positivity) _)
    (Finset.nonempty_range_iff.mpr (by omega))

/-- The annuity factor strictly decreases in the monthly rate. -/
lemma annuity_strict_anti (n : ℕ) (hn : 1 ≤ n) {a b : ℚ} (ha : 0 ≤ a) (hab : a < b) :
    annuity b n < annuity a n := by
  have ha0 : (0 : ℚ) < 1 + a := by linarith
  have hb0 : (0 : ℚ) < 1 + b := by linarith
  refine Finset.sum_lt_sum_of_nonempty (Finset.nonempty_range_iff.mpr (by omega))
    (fun k _ => ?_)
  have hbase : 1 / (1 + b) < 1 / (1 + a) := one_div_lt_one_div_of_lt ha0 (by linarith)
  exact pow_lt_pow_left₀ hbase (le_of_lt (one_div_pos.mpr hb0)) (by omega)

/-- The solver's payment formula is the principal over the annuity factor. -/
lemma solverPayment_eq (P : ℚ) (n : ℕ) (hn : 1 ≤ n) (r : ℚ) (hr : 0 ≤ r) :
    solverPayment P n r = P / annuity (r / 100 / 12) n := by
  by_cases h0 : r / 100 / 12 = 0
  · have hann : annuity (r / 100 / 12) n = (n : ℚ) := by
      rw [h0]
      simp [annuity]
    simp only [solverPayment]
    rw [if_pos h0, hann]
  · have hmpos : 0 < r / 100 / 12 := lt_of_le_of_ne (by positivity) (Ne.symm h0)
    have hx0 : (0 : ℚ) < 1 + r / 100 / 12 := by linarith
    simp only [solverPayment]
    rw [if_neg h0, annuity_closed _ hmpos n, div_div_eq_mul_div]

/-- The solver's payment formula is strictly increasing in the rate. -/
lemma solverPayment_strictMono (P : ℚ) (hP : 0 < P) (n : ℕ) (hn : 1 ≤ n)
    {a b : ℚ} (ha : 0 ≤ a) (hab : a < b) :
    solverPayment P n a < solverPayment P n b := by
  rw [solverPayment_eq P n hn a ha, solverPayment_eq P n hn b (by linarith)]
  have h1 : annuity (b / 100 / 12) n < annuity (a / 100 / 12) n :=
    annuity_strict_anti n hn (by linarith) (by linarith)
  have h2 : 0 < annuity (b / 100 / 12) n := annuity_pos _ (by linarith) n hn
  have h3 : 0 < annuity (a / 100 / 12) n := annuity_pos _ (by linarith) n hn
  exact (div_lt_div_iff_of_pos_left hP h3 h2).mpr h1

/-- Bisection invariant of `suggestedRateLoop`: starting from a bracket
that contains the sought rate `r` and whose width is at most
`1/10000 · 2^fuel`, the loop either exits on the payment tolerance or
returns a midpoint within `1/10000` of `r`. -/
lemma suggestedRateLoop_approx (P : ℚ) (hP : 0 < P) (n : ℕ) (hn : 1 ≤ n)
    (r : ℚ) (hr0 : 0 ≤ r) :
    ∀ (fuel : ℕ) (low high : ℚ), 0 ≤ low → low ≤ r → r ≤ high →
      high - low ≤ 1 / 10000 * 2 ^ fuel →
      |solverPayment P n (suggestedRateLoop P n (solverPayment P n r) fuel low high
          ((low + high) / 2)) - solverPayment P n r| < 1 / 100 ∨
      |suggestedRateLoop P n (solverPayment P n r) fuel low high ((low + high) / 2) - r| ≤
        1 / 10000 := by
  intro fuel
  induction fuel with
  | zero =>
    intro low high h0 hlr hrh hw
    norm_num at hw
    right
    simp only [suggestedRateLoop]
    rw [abs_le]
    constructor <;> linarith
  | succ f ih =>
    intro low high h0 hlr hrh hw
    have h2f : (2 : ℚ) ^ (f + 1) = 2 * 2 ^ f := by ring
    rw [h2f] at hw
    simp only [suggestedRateLoop]
    by_cases hwide : (1 : ℚ) / 10000 < high - low
    case neg =>
      rw [if_neg hwide]
      push_neg at hwide
      right
      rw [abs_le]
      constructor <;> linarith
    case pos =>
      rw [if_pos hwide]
      by_cases htol : |solverPayment P n ((low + high) / 2) - solverPayment P n r| < 1 / 100
      · rw [if_pos htol]
        exact Or.inl htol
      · rw [if_neg htol]
        by_cases hlt : solverPayment P n ((low + high) / 2) < solverPayment P n r
        · rw [if_pos hlt]
          have hmidr : (low + high) / 2 ≤ r := by
            by_contra hc
            push_neg at hc
            have := solverPayment_strictMono P hP n hn hr0 hc
            linarith
          exact ih ((low + high) / 2) high (by linarith) hmidr hrh (by linarith)
        · rw [if_neg hlt]
          push_neg at hlt
          have hrmid : r ≤ (low + high) / 2 := by
            by_contra hc
            push_neg at hc
            have := solverPayment_strictMono P hP n hn (by linarith) hc
            linarith
          exact ih low ((low + high) / 2) h0 hlr hrmid (by linarith)

/-- C7 amended: feeding the closed-form payment at rate `r ∈ [0, 20]` back
into the payment-target solver yields a rate whose implied payment matches
the target within the $0.01 payment tolerance, or (when the bracket-width
exit fires) a rate within 0.0001 of `r`; the solver need not recover `r`
itself within any tolerance. -/
theorem c7_round_trip_within_solver_tolerances (P : ℚ) (years : ℕ) (r : ℚ)
    (hP : 0 < P) (hy : 1 ≤ years) (hr0 : 0 ≤ r) (hr20 : r ≤ 20) :
    |solverPayment P (years * 12)
        (calculateSuggestedRate P years (calculateMonthlyPayment P years r)) -
      calculateMonthlyPayment P years r| < 1 / 100 ∨
    |calculateSuggestedRate P years (calculateMonthlyPayment P years r) - r| ≤ 1 / 10000 := by
  have hn : 1 ≤ years * 12 := by omega
  have heq : calculateMonthlyPayment P years r = solverPayment P (years * 12) r := rfl
  rw [heq]
  by_cases hr : r = 0
  · subst hr
    have hz : solverPayment P (years * 12) 0 = P / ((years * 12 : ℕ) : ℚ) := by
      simp only [solverPayment]
      rw [if_pos (by norm_num)]
    have hguard : calculateSuggestedRate P years (solverPayment P (years * 12) 0) = 0 := by
      simp only [calculateSuggestedRate]
      rw [if_pos (le_of_eq hz)]
    rw [hguard]
    norm_num
  · have hrpos : 0 < r := lt_of_le_of_ne hr0 (Ne.symm hr)
    have hz : solverPayment P (years * 12) 0 = P / ((years * 12 : ℕ) : ℚ) := by
      simp only [solverPayment]
      rw [if_pos (by norm_num)]
    have hlt : P / ((years * 12 : ℕ) : ℚ) < solverPayment P (years * 12) r := by
      rw [← hz]
      exact solverPayment_strictMono P hP (years * 12) hn (le_refl 0) hrpos
    simp only [calculateSuggestedRate]
    rw [if_neg (not_le.mpr hlt)]
    rw [show (10 : ℚ) = (0 + 20) / 2 by norm_num]
    exact suggestedRateLoop_approx P hP (years * 12) hn r hr0 100 0 20 (le_refl 0) hr0 hr20
      (by norm_num)

/-- C7 amended witness at a concrete input. -/
theorem c7_round_trip_within_solver_tolerances_witness :
    (0 : ℚ) < 1200 ∧ 1 ≤ 1 ∧ (0 : ℚ) ≤ 5 ∧ (5 : ℚ) ≤ 20 ∧
    (|solverPayment 1200 (1 * 12)
        (calculateSuggestedRate 1200 1 (calculateMonthlyPayment 1200 1 5)) -
      calculateMonthlyPayment 1200 1 5| < 1 / 100 ∨
     |calculateSuggestedRate 1200 1 (calculateMonthlyPayment 1200 1 5) - 5| ≤ 1 / 10000) :=
  ⟨by norm_num, le_refl 1, by norm_num, by norm_num,
    c7_round_trip_within_solver_tolerances 1200 1 5 (by norm_num) (le_refl 1)
      (by norm_num) (by norm_num)⟩

end Refi

namespace Refi

/-- With no one-time payment and `continueExtraPayments = true`, the new
loop body coincides with the old one. -/
lemma stepMonth_eq_old (p : SimParams) (hot : p.oneTime = 0)
    (hce : p.continueExtra = true) (s : SimState) :
    stepMonth p s = stepMonthOld p s := by
  simp [stepMonth, stepMonthOld, hot, hce]

/-- Guarded-step version of `stepMonth_eq_old`. -/
lemma loanStep_eq_old (p : SimParams) (cap : ℕ) (hot : p.oneTime = 0)
    (hce : p.continueExtra = true) (s : SimState) :
    loanStep p cap s = loanStepOld p cap s := by
  unfold loanStep loanStepOld
  rw [stepMonth_eq_old p hot hce]

/-- Iterated version of `stepMonth_eq_old`. -/
lemma loopIter_eq_old (p : SimParams) (cap : ℕ) (hot : p.oneTime = 0)
    (hce : p.continueExtra = true) :
    ∀ (fuel : ℕ) (s : SimState), loopIter p cap fuel s = loopIterOld p cap fuel s := by
  intro fuel
  induction fuel with
  | zero => exact fun s => rfl
  | succ f ih =>
    intro s
    simp only [loopIter, loopIterOld, loanStep_eq_old p cap hot hce]
    exact ih _

/-- Any property preserved by one old guarded step is preserved by
iterating it. -/
lemma loopIter_preserves_old (p : SimParams) (cap : ℕ) (P : SimState → Prop)
    (hstep : ∀ s, P s → P (loanStepOld p cap s)) :
    ∀ (fuel : ℕ) (s : SimState), P s → P (loopIterOld p cap fuel s) := by
  intro fuel
  induction fuel with
  | zero => exact fun s h => h
  | succ f ih =>
    intro s h
    simp only [loopIterOld]
    exact ih _ (hstep s h)

/-- The old guarded step keeps the remaining-balance snapshot non-negative. -/
lemma loanStepOld_crb_nonneg (p : SimParams) (cap : ℕ) (s : SimState)
    (h : 0 ≤ s.crb) : 0 ≤ (loanStepOld p cap s).crb := by
  simp only [loanStepOld, stepMonthOld]
  split_ifs <;> (try dsimp only) <;> linarith

/-- C10 amended: with no one-time payment and `continueExtraPayments = true`
(and a non-negative principal), the old and the current `calculateLoan`
agree on every field except `monthsToPayout` (and the derived
`yearsToPayout`): the current version subtracts the elapsed months, and the
two versions coincide completely when no months have elapsed. -/
theorem c10_versions_agree_up_to_elapsed_shift (loan : LoanData) (monthsDiff : ℤ)
    (h1 : loan.oneTimeExtraPayments = 0) (h2 : loan.continueExtraPayments = true)
    (hP : 0 ≤ loan.loanAmount) :
    (calculateLoan loan monthsDiff).totalInterestPaid =
      (calculateLoanOld loan monthsDiff).totalInterestPaid ∧
    (calculateLoan loan monthsDiff).totalAmountPaid =
      (calculateLoanOld loan monthsDiff).totalAmountPaid ∧
    (calculateLoan loan monthsDiff).totalExtraPayment =
      (calculateLoanOld loan monthsDiff).totalExtraPayment ∧
    (calculateLoan loan monthsDiff).payoffDate =
      (calculateLoanOld loan monthsDiff).payoffDate ∧
    (calculateLoan loan monthsDiff).currentRemainingBalance =
      (calculateLoanOld loan monthsDiff).currentRemainingBalance ∧
    (calculateLoan loan monthsDiff).monthsElapsed =
      (calculateLoanOld loan monthsDiff).monthsElapsed ∧
    (calculateLoan loan monthsDiff).monthsToPayout =
      (calculateLoanOld loan monthsDiff).monthsToPayout - monthsElapsedOf monthsDiff ∧
    (monthsElapsedOf monthsDiff = 0 →
      calculateLoan loan monthsDiff = calculateLoanOld loan monthsDiff) := by
  have hO : (mkParams loan (monthsElapsedOf monthsDiff)).oneTime = 0 := h1
  have hC : (mkParams loan (monthsElapsedOf monthsDiff)).continueExtra = true := h2
  have hcrb : 0 ≤ (loopIterOld (mkParams loan (monthsElapsedOf monthsDiff))
      (loan.loanLengthYears * 12 * 2) (loan.loanLengthYears * 12 * 2)
      (initState loan.loanAmount loan.loanAmount)).crb := by
    refine loopIter_preserves_old (mkParams loan (monthsElapsedOf monthsDiff)) _
      (fun s => 0 ≤ s.crb) (fun s hs => loanStepOld_crb_nonneg _ _ s hs) _ _ hP
  have hcrbPre : 0 ≤ (if monthsElapsedOf monthsDiff = 0 then loan.loanAmount else
      (loopIterOld (mkParams loan (monthsElapsedOf monthsDiff))
        (loan.loanLengthYears * 12 * 2) (loan.loanLengthYears * 12 * 2)
        (initState loan.loanAmount loan.loanAmount)).crb) := by
    split_ifs
    · exact hP
    · exact hcrb
  simp only [calculateLoan, calculateLoanOld, runLoop, runLoopOld,
    loopIter_eq_old _ _ hO hC, h1, sub_zero, lt_self_iff_false, and_false,
    false_and, if_false, max_eq_right hcrbPre, true_and]
  refine ⟨?_, ?_⟩
  · split_ifs with h
    · rfl
    · omega
  · intro hme
    simp [hme]

end Refi


namespace Refi

/-- C10 amended witness at a concrete input. -/
theorem c10_versions_agree_witness :
    loanTwelveMonths.oneTimeExtraPayments = 0 ∧
    loanTwelveMonths.continueExtraPayments = true ∧
    (0 : ℚ) ≤ loanTwelveMonths.loanAmount ∧
    (calculateLoan loanTwelveMonths 6).monthsToPayout =
      (calculateLoanOld loanTwelveMonths 6).monthsToPayout - monthsElapsedOf 6 :=
  ⟨rfl, rfl, by norm_num [loanTwelveMonths],
    (c10_versions_agree_up_to_elapsed_shift loanTwelveMonths 6 rfl rfl
      (by norm_num [loanTwelveMonths])).2.2.2.2.2.2.1⟩

/-- One simulated month increments the month counter, keeps the balance
non-negative and never decreases either interest accumulator. -/
lemma stepMonth_progress (p : SimParams) (s : SimState) (hb : 0 ≤ s.balance)
    (hr : 0 ≤ p.monthlyRate) :
    0 ≤ (stepMonth p s).balance ∧
    (stepMonth p s).monthCount = s.monthCount + 1 ∧
    s.totalInterest ≤ (stepMonth p s).totalInterest ∧
    s.futureInterest ≤ (stepMonth p s).futureInterest := by
  have hA3 : (0 : ℚ) ≤ max 0 (s.balance - p.oneTime) := le_max_left _ _
  have hN3 : (0 : ℚ) ≤ max 0 (s.balance - p.oneTime) * p.monthlyRate := mul_nonneg hA3 hr
  have hN4 : (0 : ℚ) ≤ s.balance * p.monthlyRate := mul_nonneg hb hr
  simp only [stepMonth]
  split_ifs <;> refine ⟨?_, ?_, ?_, ?_⟩ <;> (try dsimp only) <;> first | rfl | linarith

set_option maxHeartbeats 2000000 in
/-- One simulated month on two states that agree on the month counter,
where the second run uses a larger recurring extra payment and a balance
within `[0, first run's balance]` and no larger interest accumulators,
preserves all those relations (with equal month counters afterwards). -/
lemma stepMonth_rel (p : SimParams) (e' : ℚ) (he : p.extra ≤ e')
    (hr : 0 ≤ p.monthlyRate) (s s' : SimState)
    (hmc : s'.monthCount = s.monthCount)
    (hb0 : 0 ≤ s'.balance) (hbb : s'.balance ≤ s.balance)
    (hti : s'.totalInterest ≤ s.totalInterest)
    (hfi : s'.futureInterest ≤ s.futureInterest) :
    0 ≤ (stepMonth { p with extra := e' } s').balance ∧
    (stepMonth { p with extra := e' } s').balance ≤ (stepMonth p s).balance ∧
    (stepMonth { p with extra := e' } s').monthCount ≤ (stepMonth p s).monthCount ∧
    (0 < (stepMonth { p with extra := e' } s').balance →
      (stepMonth { p with extra := e' } s').monthCount = (stepMonth p s).monthCount) ∧
    (stepMonth { p with extra := e' } s').totalInterest ≤ (stepMonth p s).totalInterest ∧
    (stepMonth { p with extra := e' } s').futureInterest ≤ (stepMonth p s).futureInterest := by
  have hb : 0 ≤ s.balance := le_trans hb0 hbb
  have hA1 : max 0 (s'.balance - p.oneTime) ≤ max 0 (s.balance - p.oneTime) :=
    max_le_max (le_refl 0) (sub_le_sub_right hbb _)
  have hA2 : (0 : ℚ) ≤ max 0 (s'.balance - p.oneTime) := le_max_left _ _
  have hA3 : (0 : ℚ) ≤ max 0 (s.balance - p.oneTime) := le_max_left _ _
  have hM1 : max 0 (s'.balance - p.oneTime) * p.monthlyRate ≤
      max 0 (s.balance - p.oneTime) * p.monthlyRate :=
    mul_le_mul_of_nonneg_right hA1 hr
  have hM2 : s'.balance * p.monthlyRate ≤ s.balance * p.monthlyRate :=
    mul_le_mul_of_nonneg_right hbb hr
  have hN1 : (0 : ℚ) ≤ max 0 (s'.balance - p.oneTime) * p.monthlyRate := mul_nonneg hA2 hr
  have hN2 : (0 : ℚ) ≤ s'.balance * p.monthlyRate := mul_nonneg hb0 hr
  have hN3 : (0 : ℚ) ≤ max 0 (s.balance - p.oneTime) * p.monthlyRate := mul_nonneg hA3 hr
  have hN4 : (0 : ℚ) ≤ s.balance * p.monthlyRate := mul_nonneg hb hr
  simp only [stepMonth]
  (try dsimp only)
  rw [hmc]
  by_cases hOT : s.monthCount + 1 = p.monthsElapsed ∧ 0 < p.monthsElapsed ∧ 0 < p.oneTime
  · simp only [if_pos hOT]
    by_cases hz : max 0 (s.balance - p.oneTime) = 0
    · have hz' : max 0 (s'.balance - p.oneTime) = 0 :=
        le_antisymm (le_trans hA1 (le_of_eq hz)) hA2
      rw [if_pos ⟨hOT, hz'⟩, if_pos ⟨hOT, hz⟩]
      refine ⟨le_refl 0, le_refl 0, le_refl _, fun hx => rfl, hti, hfi⟩
    · have hnsS : ¬ ((s.monthCount + 1 = p.monthsElapsed ∧ 0 < p.monthsElapsed ∧
          0 < p.oneTime) ∧ max 0 (s.balance - p.oneTime) = 0) := fun hc => hz hc.2
      by_cases hz' : max 0 (s'.balance - p.oneTime) = 0
      · rw [if_pos ⟨hOT, hz'⟩, if_neg hnsS]
        (try split_ifs) <;> refine ⟨?_, ?_, ?_, ?_, ?_, ?_⟩ <;> (try dsimp only) <;>
          (try intro hx) <;> first | rfl | linarith | omega
      · have hnsS' : ¬ ((s.monthCount + 1 = p.monthsElapsed ∧ 0 < p.monthsElapsed ∧
            0 < p.oneTime) ∧ max 0 (s'.balance - p.oneTime) = 0) := fun hc => hz' hc.2
        rw [if_neg hnsS', if_neg hnsS]
        (try split_ifs) <;> refine ⟨?_, ?_, ?_, ?_, ?_, ?_⟩ <;> (try dsimp only) <;>
          (try intro hx) <;> first | rfl | linarith | omega
  · simp only [if_neg hOT]
    have hns : ¬ ((s.monthCount + 1 = p.monthsElapsed ∧ 0 < p.monthsElapsed ∧
        0 < p.oneTime) ∧ s.balance = 0) := fun hc => hOT hc.1
    have hns' : ¬ ((s.monthCount + 1 = p.monthsElapsed ∧ 0 < p.monthsElapsed ∧
        0 < p.oneTime) ∧ s'.balance = 0) := fun hc => hOT hc.1
    rw [if_neg hns', if_neg hns]
    (try split_ifs) <;> refine ⟨?_, ?_, ?_, ?_, ?_, ?_⟩ <;> (try dsimp only) <;>
      (try intro hx) <;> first | rfl | linarith | omega

end Refi

namespace Refi

/-- Guarded-step version of `stepMonth_rel`, covering the cases where one
or both runs have already stopped (paid off or hit the cap). -/
lemma loanStep_rel (p : SimParams) (e' : ℚ) (cap : ℕ) (he : p.extra ≤ e')
    (hr : 0 ≤ p.monthlyRate) (s s' : SimState)
    (hb0 : 0 ≤ s'.balance) (hbb : s'.balance ≤ s.balance)
    (hmcle : s'.monthCount ≤ s.monthCount)
    (hlock : 0 < s'.balance → s'.monthCount = s.monthCount)
    (hti : s'.totalInterest ≤ s.totalInterest)
    (hfi : s'.futureInterest ≤ s.futureInterest) :
    0 ≤ (loanStep { p with extra := e' } cap s').balance ∧
    (loanStep { p with extra := e' } cap s').balance ≤ (loanStep p cap s).balance ∧
    (loanStep { p with extra := e' } cap s').monthCount ≤ (loanStep p cap s).monthCount ∧
    (0 < (loanStep { p with extra := e' } cap s').balance →
      (loanStep { p with extra := e' } cap s').monthCount = (loanStep p cap s).monthCount) ∧
    (loanStep { p with extra := e' } cap s').totalInterest ≤
      (loanStep p cap s).totalInterest ∧
    (loanStep { p with extra := e' } cap s').futureInterest ≤
      (loanStep p cap s).futureInterest := by
  have hb : 0 ≤ s.balance := le_trans hb0 hbb
  by_cases hbp : 0 < s'.balance
  · have hmc : s'.monthCount = s.monthCount := hlock hbp
    by_cases hcap : s.monthCount < cap
    · have hg' : 0 < s'.balance ∧ s'.monthCount < cap := ⟨hbp, by rw [hmc]; exact hcap⟩
      have hg : 0 < s.balance ∧ s.monthCount < cap := ⟨lt_of_lt_of_le hbp hbb, hcap⟩
      simp only [loanStep]
      rw [if_pos hg', if_pos hg]
      exact stepMonth_rel p e' he hr s s' hmc hb0 hbb hti hfi
    · have hncap' : ¬ s'.monthCount < cap := by rw [hmc]; exact hcap
      simp only [loanStep]
      rw [if_neg (fun hc => hncap' hc.2), if_neg (fun hc => hcap hc.2)]
      exact ⟨hb0, hbb, hmcle, fun _ => hmc, hti, hfi⟩
  · have hbz : s'.balance = 0 := le_antisymm (not_lt.mp hbp) hb0
    have hidle : loanStep { p with extra := e' } cap s' = s' := by
      simp only [loanStep]
      rw [if_neg (fun hc => hbp hc.1)]
    rw [hidle]
    by_cases hg : 0 < s.balance ∧ s.monthCount < cap
    · simp only [loanStep]
      rw [if_pos hg]
      obtain ⟨q1, q2, q3, q4⟩ := stepMonth_progress p s hb hr
      refine ⟨hb0, ?_, ?_, ?_, le_trans hti q3, le_trans hfi q4⟩
      · rw [hbz]
        exact q1
      · rw [q2]
        omega
      · intro hc
        rw [hbz] at hc
        exact absurd hc (lt_irrefl 0)
    · simp only [loanStep]
      rw [if_neg hg]
      exact ⟨hb0, hbb, hmcle, hlock, hti, hfi⟩

/-- Iterated version of `loanStep_rel`. -/
lemma loopIter_rel (p : SimParams) (e' : ℚ) (cap : ℕ) (he : p.extra ≤ e')
    (hr : 0 ≤ p.monthlyRate) :
    ∀ (fuel : ℕ) (s s' : SimState),
      0 ≤ s'.balance → s'.balance ≤ s.balance →
      s'.monthCount ≤ s.monthCount →
      (0 < s'.balance → s'.monthCount = s.monthCount) →
      s'.totalInterest ≤ s.totalInterest →
      s'.futureInterest ≤ s.futureInterest →
      0 ≤ (loopIter { p with extra := e' } cap fuel s').balance ∧
      (loopIter { p with extra := e' } cap fuel s').balance ≤
        (loopIter p cap fuel s).balance ∧
      (loopIter { p with extra := e' } cap fuel s').monthCount ≤
        (loopIter p cap fuel s).monthCount ∧
      (0 < (loopIter { p with extra := e' } cap fuel s').balance →
        (loopIter { p with extra := e' } cap fuel s').monthCount =
          (loopIter p cap fuel s).monthCount) ∧
      (loopIter { p with extra := e' } cap fuel s').totalInterest ≤
        (loopIter p cap fuel s).totalInterest ∧
      (loopIter { p with extra := e' } cap fuel s').futureInterest ≤
        (loopIter p cap fuel s).futureInterest := by
  intro fuel
  induction fuel with
  | zero => exact fun s s' h1 h2 h3 h4 h5 h6 => ⟨h1, h2, h3, h4, h5, h6⟩
  | succ f ih =>
    intro s s' h1 h2 h3 h4 h5 h6
    simp only [loopIter]
    obtain ⟨g1, g2, g3, g4, g5, g6⟩ := loanStep_rel p e' cap he hr s s' h1 h2 h3 h4 h5 h6
    exact ih _ _ g1 g2 g3 g4 g5 g6

/-- C4: increasing the recurring extra payment (all else fixed) never
increases the reported months to payout nor the reported total interest,
for a loan with non-negative rate and principal. -/
theorem c4_extraPayment_monotone (loan : LoanData) (monthsDiff : ℤ) (e' : ℚ)
    (hr : 0 ≤ loan.interestRate) (hP : 0 ≤ loan.loanAmount)
    (he : loan.extraPayment ≤ e') :
    (calculateLoan { loan with extraPayment := e' } monthsDiff).monthsToPayout ≤
      (calculateLoan loan monthsDiff).monthsToPayout ∧
    (calculateLoan { loan with extraPayment := e' } monthsDiff).totalInterestPaid ≤
      (calculateLoan loan monthsDiff).totalInterestPaid := by
  have hr' : 0 ≤ (mkParams loan (monthsElapsedOf monthsDiff)).monthlyRate :=
    div_nonneg (div_nonneg hr (by norm_num)) (by norm_num)
  have he' : (mkParams loan (monthsElapsedOf monthsDiff)).extra ≤ e' := he
  have hparams : mkParams { loan with extraPayment := e' } (monthsElapsedOf monthsDiff) =
      { mkParams loan (monthsElapsedOf monthsDiff) with extra := e' } := rfl
  simp only [calculateLoan]
  (try dsimp only)
  by_cases hc : monthsElapsedOf monthsDiff = 0 ∧ 0 < loan.oneTimeExtraPayments ∧
      max 0 (loan.loanAmount - loan.oneTimeExtraPayments) = 0
  · rw [if_pos hc, if_pos hc]
    exact ⟨le_refl _, le_refl _⟩
  · rw [if_neg hc, if_neg hc]
    set b0 := (if monthsElapsedOf monthsDiff = 0 ∧ 0 < loan.oneTimeExtraPayments then
        max 0 (loan.loanAmount - loan.oneTimeExtraPayments) else loan.loanAmount) with hb0def
    have hb00 : 0 ≤ b0 := by
      rw [hb0def]
      split_ifs
      · exact le_max_left _ _
      · exact hP
    simp only [runLoop, hparams]
    obtain ⟨g1, g2, g3, g4, g5, g6⟩ :=
      loopIter_rel (mkParams loan (monthsElapsedOf monthsDiff)) e'
        (loan.loanLengthYears * 12 * 2) he' hr' (loan.loanLengthYears * 12 * 2)
        (initState loan.loanAmount b0) (initState loan.loanAmount b0)
        hb00 (le_refl _) (le_refl _) (fun _ => rfl) (le_refl _) (le_refl _)
    constructor
    · (try dsimp only)
      split_ifs with h
      · exact Nat.sub_le_sub_right g3 _
      · exact g3
    · (try dsimp only)
      split_ifs with h h2
      · exact absurd h2 (by omega)
      · exact g6
      · exact g5

/-- C4 witness at a concrete input. -/
theorem c4_extraPayment_monotone_witness :
    (0 : ℚ) ≤ loanTwelveMonths.interestRate ∧
    (0 : ℚ) ≤ loanTwelveMonths.loanAmount ∧
    loanTwelveMonths.extraPayment ≤ (100 : ℚ) ∧
    (calculateLoan { loanTwelveMonths with extraPayment := 100 } 0).monthsToPayout ≤
      (calculateLoan loanTwelveMonths 0).monthsToPayout :=
  ⟨by norm_num [loanTwelveMonths], by norm_num [loanTwelveMonths],
    by norm_num [loanTwelveMonths],
    (c4_extraPayment_monotone loanTwelveMonths 0 100 (by norm_num [loanTwelveMonths])
      (by norm_num [loanTwelveMonths]) (by norm_num [loanTwelveMonths])).1⟩

end Refi
